import Mathlib

/-!
Verification of the rentmanager property-rental bookkeeping application.

The embedding models `app/models.py` (the `Socio`, `Inmueble`, `Gasto` and
`DeclaracionTrimestral` records and the derived financial figures on
`Inmueble`) and `app/views.py` (visible-property resolution, the permission
check, and the request handlers for property and expense CRUD).

Conventions of the embedding:
- `Decimal` currency and percentage amounts are modelled by `Rat`.  All the
  arithmetic the source performs (multiplication by 12, division of a
  5-digit percentage by 100, products and sums of amounts bounded by the
  declared `max_digits`) stays far below the 28 significant digits of the
  default decimal context, so every source operation is exact and `Rat` is
  a faithful model.
- Dates are modelled as integer day numbers; they never enter a claim.
- The relational store is a `Database` record of lists; the many-to-many
  association between `Socio` and `Inmueble` rows is the list of
  (socio id, inmueble pk) pairs.
- A Django model instance that has not been saved has `pk = none`; the
  nullable in-memory `renta_mensual` is `Option Rat`.
-/

namespace RentManager

/-- `django.contrib.auth.models.User`: the fields the views consult. -/
structure User where
  id : Nat
  is_staff : Bool
  is_active : Bool
deriving Repr, DecidableEq

/-- `app/models.py` `Socio`: owner record, one-to-one with a `User`. -/
structure Socio where
  id : Nat
  usuarioId : Nat
  porcentaje_participacion : Rat
  activo : Bool
deriving Repr, DecidableEq

/-- `app/models.py` `Inmueble`: a managed rental property.
`pk = none` models an instance not yet saved; `renta_mensual = none`
models an unset monthly rent (`if self.renta_mensual is None`). -/
structure Inmueble where
  pk : Option Nat
  nombre : String
  tipo : String
  direccion : String
  ciudad : String
  codigo_postal : String
  referencias_catastro : Option String
  renta_mensual : Option Rat
  iva_porcentaje : Rat
  irpf_porcentaje : Rat
  fecha_inicio_alquiler : Int
  fecha_fin_alquiler : Option Int
  activo : Bool
deriving Repr, DecidableEq

/-- `app/models.py` `Gasto`: a deductible expense of one property. -/
structure Gasto where
  id : Nat
  inmuebleId : Nat
  categoria : String
  descripcion : String
  cantidad : Rat
  fecha : Int
  factura_numero : Option String
deriving Repr, DecidableEq

/-- `app/models.py` `DeclaracionTrimestral`: quarterly tax filing per owner. -/
structure DeclaracionTrimestral where
  socioId : Nat
  anio : Int
  trimestre : String
  iva_total_ingreso : Rat
  iva_total_gasto : Rat
  iva_a_pagar : Rat
  irpf_total : Rat
  declarado : Bool
deriving Repr, DecidableEq

/-- The relational store: rows of each model plus the `Inmueble.socios`
many-to-many association as (socio id, inmueble pk) pairs. -/
structure Database where
  users : List User
  socios : List Socio
  inmuebles : List Inmueble
  socios_m2m : List (Nat × Nat)
  gastos : List Gasto
  declaraciones : List DeclaracionTrimestral
deriving Repr, DecidableEq

/-- `self.gastos.all()`: the expenses whose foreign key is this property. -/
def Database.gastosOf (db : Database) (pk : Nat) : List Gasto :=
  db.gastos.filter (fun g => g.inmuebleId == pk)

/-- `Inmueble.renta_anual_bruta` (models.py 64-68). -/
def Inmueble.renta_anual_bruta (self : Inmueble) : Rat :=
  match self.renta_mensual with
  | none => 0
  | some r => r * 12

/-- `Inmueble.iva_total` (models.py 70-74). -/
def Inmueble.iva_total (self : Inmueble) : Rat :=
  match self.renta_mensual with
  | none => 0
  | some _ => self.renta_anual_bruta * (self.iva_porcentaje / 100)

/-- `Inmueble.irpf_total` (models.py 76-80). -/
def Inmueble.irpf_total (self : Inmueble) : Rat :=
  match self.renta_mensual with
  | none => 0
  | some _ => self.renta_anual_bruta * (self.irpf_porcentaje / 100)

/-- `Inmueble.renta_anual_neta` (models.py 82-86). -/
def Inmueble.renta_anual_neta (self : Inmueble) : Rat :=
  match self.renta_mensual with
  | none => 0
  | some _ => self.renta_anual_bruta - self.irpf_total

/-- `Inmueble.gastos_totales` (models.py 88-92): zero for an unsaved
instance, else the sum of the attached expense amounts.  The coercion
`sum([...]) or Decimal(0)` in the source of a falsy sum does not change the
value, so the plain fold is the same function. -/
def Inmueble.gastos_totales (self : Inmueble) (db : Database) : Rat :=
  match self.pk with
  | none => 0
  | some pk => ((db.gastosOf pk).map Gasto.cantidad).foldl (fun a b => a + b) 0

/-- `Inmueble.renta_neta_con_gastos` (models.py 94-98). -/
def Inmueble.renta_neta_con_gastos (self : Inmueble) (db : Database) : Rat :=
  match self.renta_mensual with
  | none => 0
  | some _ => self.renta_anual_neta - self.gastos_totales db

/-! ## Views layer (`app/views.py`) -/

/-- True when property `i` is in the associated set of socio `s`
(`socio.inmuebles` / the `socios` many-to-many). -/
def inmuebleOfSocio (db : Database) (s : Socio) (i : Inmueble) : Bool :=
  match i.pk with
  | none => false
  | some pk => db.socios_m2m.contains (s.id, pk)

/-- `get_user_inmuebles` (views.py 70-109): `Socio.objects.get(usuario=user)`
is tried first; when it succeeds the result is the associated set of that
socio,
regardless of `is_staff`.  On `Socio.DoesNotExist`, staff users get every
`Inmueble` row and anyone else gets the empty queryset.  The prefetch and
select_related calls only change row loading, not the returned rows. -/
def get_user_inmuebles (db : Database) (user : User) : List Inmueble × Option Socio :=
  match db.socios.find? (fun s => s.usuarioId == user.id) with
  | some socio => (db.inmuebles.filter (fun i => inmuebleOfSocio db socio i), some socio)
  | none =>
    if user.is_staff then (db.inmuebles, none)
    else ([], none)

/-- `check_inmueble_permission` (views.py 112-125): staff always pass, else
`Socio.objects.filter(usuario=user, inmuebles=inmueble).exists()`. -/
def check_inmueble_permission (db : Database) (user : User) (i : Inmueble) : Bool :=
  if user.is_staff then true
  else db.socios.any (fun s => s.usuarioId == user.id && inmuebleOfSocio db s i)

/-- Outcome of a handler as the claims need it: `get_object_or_404` miss,
permission-denied redirect carrying the flash message, or normal flow. -/
inductive HttpResult where
  | notFound
  | redirectError (flash : String)
  | ok
deriving Repr, DecidableEq

/-- `get_object_or_404(Inmueble, pk=pk)`. -/
def Database.findInmueble (db : Database) (pk : Nat) : Option Inmueble :=
  db.inmuebles.find? (fun i => i.pk == some pk)

/-- `get_object_or_404(Gasto, pk=pk)` / `DeleteView.get_object`. -/
def Database.findGasto (db : Database) (pk : Nat) : Option Gasto :=
  db.gastos.find? (fun g => g.id == pk)

/-- `inmueble_detail` (views.py 316-337): object lookup first (404 on a
missing pk), then the permission check, which on failure flashes an error
and redirects to the list without touching the store. -/
def inmueble_detail (db : Database) (user : User) (pk : Nat) : HttpResult × Database :=
  match db.findInmueble pk with
  | none => (.notFound, db)
  | some inm =>
    if check_inmueble_permission db user inm then (.ok, db)
    else (.redirectError "No tienes permiso para ver este inmueble", db)

/-- `InmuebleUpdateView` (views.py 446-472): `dispatch` loads the object
(404 on a missing pk) and redirects with a flash when the permission check
fails; otherwise `form_valid` saves the edited fields.  The form edit is
abstracted as a function on the row. -/
def inmuebleUpdateView (db : Database) (user : User) (pk : Nat)
    (edit : Inmueble → Inmueble) : HttpResult × Database :=
  match db.findInmueble pk with
  | none => (.notFound, db)
  | some inm =>
    if check_inmueble_permission db user inm then
      (.ok, { db with
                inmuebles := db.inmuebles.map (fun i =>
                  if i.pk == some pk then edit i else i) })
    else (.redirectError "No tienes permiso para editar este inmueble", db)

/-- The body of the overridden `InmuebleDeleteView.delete` (views.py
489-503): `inmueble.activo = False` followed by a save of only that
column.  Under the Django version the settings target (4.x), `DeleteView`
routes POST through `BaseDeleteView.form_valid`, so this override is never
invoked on POST — the function embeds what the source *intends* the
endpoint to do, not what it does. -/
def softDeleteInmueble (db : Database) (pk : Nat) : Database :=
  { db with
      inmuebles := db.inmuebles.map (fun i =>
        if i.pk == some pk then { i with activo := false } else i) }

/-- What a POST to the delete endpoint actually executes on Django 4.x:
`BaseDeleteView.form_valid` calls `self.object.delete()`, removing the
`Inmueble` row itself; its `Gasto` rows (`on_delete=CASCADE`) and its
many-to-many association rows cascade away with it. -/
def hardDeleteInmueble (db : Database) (pk : Nat) : Database :=
  { db with
      inmuebles := db.inmuebles.filter (fun i => !(i.pk == some pk)),
      gastos := db.gastos.filter (fun g => !(g.inmuebleId == pk)),
      socios_m2m := db.socios_m2m.filter (fun a => !(a.2 == pk)) }

/-- `InmuebleDeleteView` (views.py 475-503) as dispatched on Django 4.x:
object lookup, permission redirect, then — because the soft-delete
override `delete()` is dead code on POST — the cascading hard delete of
`BaseDeleteView.form_valid`. -/
def inmuebleDeleteView (db : Database) (user : User) (pk : Nat) : HttpResult × Database :=
  match db.findInmueble pk with
  | none => (.notFound, db)
  | some inm =>
    if check_inmueble_permission db user inm then (.ok, hardDeleteInmueble db pk)
    else (.redirectError "No tienes permiso para eliminar este inmueble", db)

/-- `GastoCreateView` (views.py 506-538): `dispatch` does
`get_object_or_404(Inmueble, pk=inmueble_pk)` then the permission check;
`form_valid` forces `inmueble_id` to the property named in the URL before
saving. -/
def gastoCreateView (db : Database) (user : User) (inmueble_pk : Nat)
    (g : Gasto) : HttpResult × Database :=
  match db.findInmueble inmueble_pk with
  | none => (.notFound, db)
  | some inm =>
    if check_inmueble_permission db user inm then
      (.ok, { db with gastos := db.gastos ++ [{ g with inmuebleId := inmueble_pk }] })
    else (.redirectError "No tienes permiso para agregar gastos", db)

/-- `GastoUpdateView` (views.py 541-564): the expense is loaded (404 on a
missing pk) and the permission check runs against `gasto.inmueble`; the
foreign key always resolves for a consistent store, and a dangling key is
mapped to the not-found outcome. -/
def gastoUpdateView (db : Database) (user : User) (pk : Nat)
    (edit : Gasto → Gasto) : HttpResult × Database :=
  match db.findGasto pk with
  | none => (.notFound, db)
  | some g =>
    match db.findInmueble g.inmuebleId with
    | none => (.notFound, db)
    | some inm =>
      if check_inmueble_permission db user inm then
        (.ok, { db with
                  gastos := db.gastos.map (fun x => if x.id == pk then edit x else x) })
      else (.redirectError "No tienes permiso para editar este gasto", db)

/-- `GastoDeleteView` (views.py 567-592): like the update view, but the
expense row is removed (expenses are hard-deleted). -/
def gastoDeleteView (db : Database) (user : User) (pk : Nat) : HttpResult × Database :=
  match db.findGasto pk with
  | none => (.notFound, db)
  | some g =>
    match db.findInmueble g.inmuebleId with
    | none => (.notFound, db)
    | some inm =>
      if check_inmueble_permission db user inm then
        (.ok, { db with gastos := db.gastos.filter (fun x => !(x.id == pk)) })
      else (.redirectError "No tienes permiso para eliminar este gasto", db)

/-- Outcome of `InmuebleCreateView.form_valid`: normal success, the
`Socio.DoesNotExist` error-flash redirect for a non-staff user, or an
exception that escaped the `transaction.atomic` block. -/
inductive CreateOutcome where
  | success
  | permissionRedirect
  | errorRolledBack
deriving Repr, DecidableEq

/-- `InmuebleCreateView.form_valid` (views.py 415-443), run under
`transaction.atomic`.  `form.save()` persists the property with a fresh pk;
then `Socio.objects.get(usuario=user)` is attempted and, when it succeeds,
the socio is added to `self.object.socios` unless already present.  On
`Socio.DoesNotExist`, a non-staff user gets an error flash and a redirect —
but no exception is raised, so the transaction still commits with the
property row saved and unassociated.  `saveRaises`/`addRaises` inject a
database exception into the two writes; an exception propagates out of the
atomic block, so the whole store rolls back to its initial value. -/
def inmuebleCreateView (db : Database) (user : User) (newInm : Inmueble)
    (freshPk : Nat) (saveRaises addRaises : Bool) : CreateOutcome × Database :=
  if saveRaises then (.errorRolledBack, db)
  else
    let saved := { newInm with pk := some freshPk }
    let db1 := { db with inmuebles := db.inmuebles ++ [saved] }
    match db.socios.find? (fun s => s.usuarioId == user.id) with
    | some socio =>
      if addRaises then (.errorRolledBack, db)
      else if (socio.id, freshPk) ∈ db1.socios_m2m then (.success, db1)
      else (.success, { db1 with socios_m2m := db1.socios_m2m ++ [(socio.id, freshPk)] })
    | none =>
      if user.is_staff then (.success, db1)
      else (.permissionRedirect, db1)

/-- Inserting a `DeclaracionTrimestral` row under the
`unique_together` constraint on (socio, anio, trimestre) declared at
models.py 181: the database rejects a second row with the same triple
(`IntegrityError`), leaving the stored rows unchanged; the boolean reports
acceptance. -/
def insertDeclaracion (ds : List DeclaracionTrimestral)
    (d : DeclaracionTrimestral) : Bool × List DeclaracionTrimestral :=
  if ds.any (fun e =>
      e.socioId == d.socioId && e.anio == d.anio && e.trimestre == d.trimestre)
  then (false, ds)
  else (true, ds ++ [d])

/-! ## Deferred-loading field names (for the dashboard / api / reportes views)

`QuerySet.only()` and `QuerySet.defer()` record field names that the ORM
resolves with `Options.get_field` when the queryset is evaluated; an
unknown name raises `FieldDoesNotExist` and the request fails. -/

/-- The database fields of the `Inmueble` model (models.py 26-55), with the
implicit primary key `id` and the automatic timestamp columns. -/
def inmuebleModelFields : List String :=
  ["id", "nombre", "tipo", "direccion", "ciudad", "codigo_postal",
   "referencias_catastro", "renta_mensual", "socios", "iva_porcentaje",
   "irpf_porcentaje", "fecha_inicio_alquiler", "fecha_fin_alquiler",
   "activo", "fecha_creacion", "fecha_actualizacion"]

/-- The names passed to `.only()` in `dashboard` (views.py 186-188). -/
def dashboardOnlyFields : List String :=
  ["id", "nombre", "renta_mensual", "tipo_iva", "tipo_irpf", "tipo"]

/-- The names passed to `.only()` in `api_dashboard_data` (views.py 604-606). -/
def apiOnlyFields : List String :=
  ["id", "nombre", "tipo", "renta_mensual", "tipo_iva", "tipo_irpf"]

/-- The names passed to `.only()` in `reportes` (views.py 659). -/
def reportesOnlyFields : List String :=
  ["id", "nombre", "renta_mensual", "tipo_iva", "tipo_irpf", "tipo"]

/-- The names passed to `.defer()` in `inmuebles_list` (views.py 273). -/
def inmueblesListDeferFields : List String :=
  ["descripcion", "notas"]

/-- Modelled from the ORM semantics of deferred loading: evaluating a
queryset restricted with `.only()`/`.defer()` succeeds exactly when every
recorded name is a field of the model; otherwise `Options.get_field`
raises `FieldDoesNotExist` during SQL compilation, before any row is read. -/
def deferredLoadingResolves (modelFields names : List String) : Bool :=
  names.all (fun n => modelFields.contains n)

/-! ## Row scopes of the aggregating views

Which property rows the sums and listings of each view range over, read
off the
queryset construction in each view body. -/

/-- `dashboard` (views.py 151-208): `inmuebles_base.filter(activo=True)`
before every aggregation and the per-property loop. -/
def dashboardInmuebles (db : Database) (user : User) : List Inmueble :=
  (get_user_inmuebles db user).1.filter (fun i => i.activo)

/-- `api_dashboard_data` (views.py 599-637): `inmuebles.filter(activo=True)`
before totals and the per-property list. -/
def apiDashboardInmuebles (db : Database) (user : User) : List Inmueble :=
  (get_user_inmuebles db user).1.filter (fun i => i.activo)

/-- `reportes` (views.py 647-681): the visible set with no `activo` filter. -/
def reportesInmuebles (db : Database) (user : User) : List Inmueble :=
  (get_user_inmuebles db user).1

/-- `inmuebles_list` (views.py 232-309) with no query parameters: the
visible set with no `activo` filter (the optional `tipo`/`search` request
filters narrow it further but never by the active flag). -/
def inmueblesListInmuebles (db : Database) (user : User) : List Inmueble :=
  (get_user_inmuebles db user).1

/-- The python accumulation loop of `dashboard` (views.py 190-198):
`renta_neta_total` summed over the active visible rows. -/
def dashboard_renta_neta_total (db : Database) (user : User) : Rat :=
  ((dashboardInmuebles db user).map Inmueble.renta_anual_neta).foldl (fun a b => a + b) 0

/-- The accumulation loop of `reportes` (views.py 662-671):
the renta total summed over all visible rows, active or not. -/
def reportes_renta_total (db : Database) (user : User) : Rat :=
  ((reportesInmuebles db user).map Inmueble.renta_anual_bruta).foldl (fun a b => a + b) 0

/-! ## Concrete fixtures for counterexamples and witnesses -/

/-- Worked example of the spec: monthly rent 800, IVA 21 %, IRPF 19 %. -/
def exInmueble : Inmueble :=
  { pk := some 1, nombre := "Piso Centro", tipo := "PISO",
    direccion := "Calle Mayor 1", ciudad := "Madrid", codigo_postal := "28001",
    referencias_catastro := none, renta_mensual := some 800,
    iva_porcentaje := 21, irpf_porcentaje := 19,
    fecha_inicio_alquiler := 0, fecha_fin_alquiler := none, activo := true }

/-- One deductible expense of 500 attached to property 1. -/
def exGasto : Gasto :=
  { id := 1, inmuebleId := 1, categoria := "MANTENIMIENTO",
    descripcion := "Obra", cantidad := 500, fecha := 10, factura_numero := none }

/-- An authenticated user with neither staff flag nor `Socio` record. -/
def exUserNoPerm : User := { id := 4, is_staff := false, is_active := true }

/-- Store holding the worked example: property 1 with its 500 expense and
no owner records at all. -/
def exDb : Database :=
  { users := [exUserNoPerm], socios := [], inmuebles := [exInmueble],
    socios_m2m := [], gastos := [exGasto], declaraciones := [] }

/-- A staff user who also holds a `Socio` record (id 2). -/
def exUserAdminSocio : User := { id := 2, is_staff := true, is_active := true }

/-- A staff user with no `Socio` record. -/
def exUserStaffOnly : User := { id := 3, is_staff := true, is_active := true }

/-- Store where user 2 is both staff and an owner, the owner record has no
associated property, and property 1 exists. -/
def exDbAdminSocio : Database :=
  { users := [exUserAdminSocio, exUserStaffOnly],
    socios := [{ id := 2, usuarioId := 2, porcentaje_participacion := 100, activo := true }],
    inmuebles := [exInmueble], socios_m2m := [], gastos := [], declaraciones := [] }

/-- A saved property whose monthly rent is unset. -/
def exInmuebleSinRenta : Inmueble :=
  { exInmueble with pk := some 1, renta_mensual := none }

/-- An unsaved property instance (no primary key yet). -/
def exInmuebleNoPk : Inmueble :=
  { exInmueble with pk := none, renta_mensual := some 800 }

/-- Store for the unset-rent scenario: property 1 has one expense of 100. -/
def exDbSinRenta : Database :=
  { users := [], socios := [], inmuebles := [exInmuebleSinRenta],
    socios_m2m := [],
    gastos := [{ exGasto with cantidad := 100 }], declaraciones := [] }

/-- Form payload of a property about to be created (not yet saved). -/
def exNuevoInmueble : Inmueble :=
  { exInmueble with pk := none, nombre := "Local Sur" }

/-- Empty store: the creating user has no `Socio` record. -/
def exDbNoSocios : Database :=
  { users := [exUserNoPerm], socios := [], inmuebles := [], socios_m2m := [],
    gastos := [], declaraciones := [] }

/-- Owner record of user 5. -/
def exSocio5 : Socio :=
  { id := 5, usuarioId := 5, porcentaje_participacion := 100, activo := true }

/-- A non-staff user who owns the `Socio` record `exSocio5`. -/
def exUserSocio : User := { id := 5, is_staff := false, is_active := true }

/-- Store where user 5 has an owner record and nothing else exists. -/
def exDbConSocio : Database :=
  { users := [exUserSocio], socios := [exSocio5], inmuebles := [],
    socios_m2m := [], gastos := [], declaraciones := [] }

/-- A stored quarterly declaration for owner 5, year 2024, Q1. -/
def exDeclaracion : DeclaracionTrimestral :=
  { socioId := 5, anio := 2024, trimestre := "Q1",
    iva_total_ingreso := 2016, iva_total_gasto := 0, iva_a_pagar := 2016,
    irpf_total := 1824, declarado := false }

/-- Expense form payload used by the create-expense witness. -/
def exGastoNuevo : Gasto :=
  { id := 9, inmuebleId := 0, categoria := "SEGUROS",
    descripcion := "Poliza", cantidad := 30, fecha := 20, factura_numero := none }

/-- A deactivated (soft-deleted) property with pk 2. -/
def exInmuebleInactivo : Inmueble :=
  { exInmueble with pk := some 2, nombre := "Garaje Norte", activo := false }

/-- Store where a staff user sees one active and one deactivated property. -/
def exDbInactivo : Database :=
  { users := [exUserStaffOnly], socios := [],
    inmuebles := [exInmueble, exInmuebleInactivo], socios_m2m := [],
    gastos := [], declaraciones := [] }

/-- Store where owner 5 is associated with property 1 but not with
property 2. -/
def exDbOwner : Database :=
  { users := [exUserSocio], socios := [exSocio5],
    inmuebles := [exInmueble, exInmuebleInactivo], socios_m2m := [(5, 1)],
    gastos := [], declaraciones := [] }

/-! ## Claims -/

/-- C1: for every property with monthly rent `r ≥ 0` and percentages
`v, i ∈ [0,100]`, the derived figures satisfy `annual_gross = r*12`,
`vat = annual_gross*v/100`, `irpf = annual_gross*i/100`,
`net = annual_gross - irpf`, `net_after_expenses = net - total_expenses`
(with no sign restriction on the result), and `net - irpf ≤ net`; the
arithmetic is exact (the `Rat` model coincides with `Decimal` on all
in-range values). -/
theorem c1_tax_and_rent_figures (db : Database) (i : Inmueble) (r : Rat)
    (hr : i.renta_mensual = some r) (hr0 : 0 ≤ r)
    (hv0 : 0 ≤ i.iva_porcentaje) (hv1 : i.iva_porcentaje ≤ 100)
    (hi0 : 0 ≤ i.irpf_porcentaje) (hi1 : i.irpf_porcentaje ≤ 100) :
    i.renta_anual_bruta = r * 12 ∧
    i.iva_total = r * 12 * (i.iva_porcentaje / 100) ∧
    i.irpf_total = r * 12 * (i.irpf_porcentaje / 100) ∧
    i.renta_anual_neta = i.renta_anual_bruta - i.irpf_total ∧
    i.renta_neta_con_gastos db = i.renta_anual_neta - i.gastos_totales db ∧
    i.renta_anual_neta - i.irpf_total ≤ i.renta_anual_neta := by
  have hb : i.renta_anual_bruta = r * 12 := by
    simp [Inmueble.renta_anual_bruta, hr]
  have hirpf : i.irpf_total = r * 12 * (i.irpf_porcentaje / 100) := by
    simp [Inmueble.irpf_total, hr, hb]
  refine ⟨hb, ?_, hirpf, ?_, ?_, ?_⟩
  · simp [Inmueble.iva_total, hr, hb]
  · simp [Inmueble.renta_anual_neta, hr]
  · simp [Inmueble.renta_neta_con_gastos, hr]
  · have h0 : 0 ≤ i.irpf_total := by
      rw [hirpf]
      have h12 : (0:Rat) ≤ r * 12 := by positivity
      exact mul_nonneg h12 (by positivity)
    exact sub_le_self _ h0

/-- C1 witness: the theorem instantiated at the worked example of the spec
(rent 800.00, IVA 21 %, IRPF 19 %, expenses totaling 500.00), together
with the concrete figures 9600 / 2016 / 1824 / 7776 / 7276. -/
theorem c1_tax_and_rent_figures_witness :
    exInmueble.renta_mensual = some 800 ∧ (0:Rat) ≤ 800 ∧
    (exInmueble.renta_anual_bruta = 800 * 12 ∧
     exInmueble.iva_total = 800 * 12 * (exInmueble.iva_porcentaje / 100) ∧
     exInmueble.irpf_total = 800 * 12 * (exInmueble.irpf_porcentaje / 100) ∧
     exInmueble.renta_anual_neta = exInmueble.renta_anual_bruta - exInmueble.irpf_total ∧
     exInmueble.renta_neta_con_gastos exDb
       = exInmueble.renta_anual_neta - exInmueble.gastos_totales exDb ∧
     exInmueble.renta_anual_neta - exInmueble.irpf_total ≤ exInmueble.renta_anual_neta) ∧
    exInmueble.renta_anual_bruta = 9600 ∧ exInmueble.iva_total = 2016 ∧
    exInmueble.irpf_total = 1824 ∧ exInmueble.renta_anual_neta = 7776 ∧
    exInmueble.gastos_totales exDb = 500 ∧
    exInmueble.renta_neta_con_gastos exDb = 7276 :=
  ⟨rfl, by norm_num,
   c1_tax_and_rent_figures exDb exInmueble 800 rfl (by norm_num)
     (by norm_num [exInmueble]) (by norm_num [exInmueble])
     (by norm_num [exInmueble]) (by norm_num [exInmueble]),
   by norm_num [Inmueble.renta_anual_bruta, exInmueble],
   by norm_num [Inmueble.iva_total, Inmueble.renta_anual_bruta, exInmueble],
   by norm_num [Inmueble.irpf_total, Inmueble.renta_anual_bruta, exInmueble],
   by norm_num [Inmueble.renta_anual_neta, Inmueble.irpf_total,
                Inmueble.renta_anual_bruta, exInmueble],
   by norm_num [Inmueble.gastos_totales, Database.gastosOf, exDb, exGasto, exInmueble],
   by norm_num [Inmueble.renta_neta_con_gastos, Inmueble.renta_anual_neta,
                Inmueble.irpf_total, Inmueble.renta_anual_bruta,
                Inmueble.gastos_totales, Database.gastosOf, exDb, exGasto, exInmueble]⟩

/-- C3 counterexample: property 1 has its monthly rent unset, yet its
`gastos_totales` figure is 100, not 0 — the claim that *every* derived
figure (total expenses included) is 0 when the rent is unset is false. -/
theorem c3_unset_rent_counterexample :
    exInmuebleSinRenta.renta_mensual = none ∧
    exInmuebleSinRenta.gastos_totales exDbSinRenta = 100 ∧
    exInmuebleSinRenta.gastos_totales exDbSinRenta ≠ 0 := by
  refine ⟨rfl, ?_, ?_⟩ <;>
    norm_num [Inmueble.gastos_totales, Database.gastosOf, exDbSinRenta,
              exInmuebleSinRenta, exInmueble, exGasto]

/-- C3 amended: with the monthly rent unset, the five rent-derived figures
(annual gross, VAT, IRPF, annual net, net after expenses) are 0, while
`gastos_totales` ignores the rent and is 0 exactly when the property has
no persisted identity. -/
theorem c3_unset_rent_amended (db : Database) (i : Inmueble) :
    (i.renta_mensual = none →
      i.renta_anual_bruta = 0 ∧ i.iva_total = 0 ∧ i.irpf_total = 0 ∧
      i.renta_anual_neta = 0 ∧ i.renta_neta_con_gastos db = 0) ∧
    (i.pk = none → i.gastos_totales db = 0) := by
  constructor
  · intro h
    simp [Inmueble.renta_anual_bruta, Inmueble.iva_total, Inmueble.irpf_total,
          Inmueble.renta_anual_neta, Inmueble.renta_neta_con_gastos, h]
  · intro h
    simp [Inmueble.gastos_totales, h]

/-- C3 amended witness: the unset-rent property yields the five zero
figures, and the unsaved property yields zero total expenses. -/
theorem c3_unset_rent_amended_witness :
    (exInmuebleSinRenta.renta_anual_bruta = 0 ∧ exInmuebleSinRenta.iva_total = 0 ∧
     exInmuebleSinRenta.irpf_total = 0 ∧ exInmuebleSinRenta.renta_anual_neta = 0 ∧
     exInmuebleSinRenta.renta_neta_con_gastos exDbSinRenta = 0) ∧
    exInmuebleNoPk.gastos_totales exDbSinRenta = 0 :=
  ⟨(c3_unset_rent_amended exDbSinRenta exInmuebleSinRenta).1 rfl,
   (c3_unset_rent_amended exDbSinRenta exInmuebleNoPk).2 rfl⟩

/-- C2 counterexample: user 2 is an administrator (`is_staff`) but also
holds a `Socio` record, and `get_user_inmuebles` tries the owner lookup
first — so this administrator sees the (empty) associated set of the
owner record,
not every property, refuting "every property when the user is an
administrator". -/
theorem c2_admin_owner_counterexample :
    exUserAdminSocio.is_staff = true ∧
    exDbAdminSocio.inmuebles ≠ [] ∧
    (get_user_inmuebles exDbAdminSocio exUserAdminSocio).1 = [] := by
  refine ⟨rfl, by decide, ?_⟩
  simp [get_user_inmuebles, exDbAdminSocio, exUserAdminSocio, inmuebleOfSocio,
        exInmueble, List.find?]

/-- C2 amended: resolution is owner-record-first — a user holding a
`Socio` record sees exactly the associated set of that owner
(administrator or
not); a user with no owner record sees every property when staff and none
otherwise; and in all cases the visible collection is a subset of all
properties. -/
theorem c2_visible_properties_amended (db : Database) (user : User) :
    (∀ i, i ∈ (get_user_inmuebles db user).1 → i ∈ db.inmuebles) ∧
    (db.socios.find? (fun s => s.usuarioId == user.id) = none → user.is_staff = true →
      (get_user_inmuebles db user).1 = db.inmuebles) ∧
    (db.socios.find? (fun s => s.usuarioId == user.id) = none → user.is_staff = false →
      (get_user_inmuebles db user).1 = []) ∧
    (∀ s, db.socios.find? (fun s2 => s2.usuarioId == user.id) = some s →
      ∀ i, i ∈ (get_user_inmuebles db user).1 ↔
        i ∈ db.inmuebles ∧ inmuebleOfSocio db s i = true) := by
  refine ⟨?_, ?_, ?_, ?_⟩
  · intro i hi
    unfold get_user_inmuebles at hi
    cases hfind : db.socios.find? (fun s => s.usuarioId == user.id) with
    | some socio =>
      rw [hfind] at hi
      exact (List.mem_filter.mp hi).1
    | none =>
      rw [hfind] at hi
      by_cases hstaff : user.is_staff = true
      · simpa [hstaff] using hi
      · simp [Bool.eq_false_iff.mpr hstaff] at hi
  · intro hfind hstaff
    unfold get_user_inmuebles
    rw [hfind]
    simp [hstaff]
  · intro hfind hstaff
    unfold get_user_inmuebles
    rw [hfind]
    simp [hstaff]
  · intro s hfind i
    unfold get_user_inmuebles
    rw [hfind]
    exact List.mem_filter

/-- C2 amended witness: for owner 5 (associated with property 1 only) the
visible collection contains property 1 and excludes property 2 — both
directions of the exact-set characterization — and the staff user without
an owner record sees the full property list. -/
theorem c2_visible_properties_amended_witness :
    exInmueble ∈ (get_user_inmuebles exDbOwner exUserSocio).1 ∧
    exInmuebleInactivo ∉ (get_user_inmuebles exDbOwner exUserSocio).1 ∧
    (get_user_inmuebles exDbAdminSocio exUserStaffOnly).1 = exDbAdminSocio.inmuebles := by
  refine ⟨?_, ?_, ?_⟩
  · exact ((c2_visible_properties_amended exDbOwner exUserSocio).2.2.2 exSocio5
      (by decide) exInmueble).mpr ⟨by simp [exDbOwner], by decide⟩
  · intro hmem
    have h := ((c2_visible_properties_amended exDbOwner exUserSocio).2.2.2 exSocio5
      (by decide) exInmuebleInactivo).mp hmem
    exact absurd h.2 (by decide)
  · exact (c2_visible_properties_amended exDbAdminSocio exUserStaffOnly).2.1 (by decide) rfl

/-- C4 code bug: `dashboard`, `api_dashboard_data` and `reportes` restrict
their querysets with only() on names including tipo_iva and tipo_irpf
(and `inmuebles_list` defers descripcion and notas), but the
`Inmueble` model has no such fields — its tax-rate columns are
`iva_porcentaje` and `irpf_porcentaje` — so evaluating any of these
querysets raises `FieldDoesNotExist` instead of returning the sums the
spec describes. -/
theorem c4_dashboard_reportes_field_bug :
    deferredLoadingResolves inmuebleModelFields dashboardOnlyFields = false ∧
    deferredLoadingResolves inmuebleModelFields apiOnlyFields = false ∧
    deferredLoadingResolves inmuebleModelFields reportesOnlyFields = false ∧
    deferredLoadingResolves inmuebleModelFields inmueblesListDeferFields = false ∧
    "tipo_iva" ∈ dashboardOnlyFields ∧ "tipo_iva" ∉ inmuebleModelFields ∧
    "iva_porcentaje" ∈ inmuebleModelFields ∧ "irpf_porcentaje" ∈ inmuebleModelFields := by
  decide

/-- C5 code bug: an authorized POST to the delete endpoint is supposed to
flip the `activo` flag and preserve the expense history, and the dead
override body (`softDeleteInmueble`) would indeed do so — but what the
endpoint actually executes on the Django version the settings target is
the cascading hard delete: on the example store, property 1 and its one
expense are gone afterwards, its deactivated row is nowhere, and the
expense count drops from 1 to 0. -/
theorem c5_hard_delete_code_bug :
    (inmuebleDeleteView exDb exUserStaffOnly 1).1 = .ok ∧
    (inmuebleDeleteView exDb exUserStaffOnly 1).2.findInmueble 1 = none ∧
    (inmuebleDeleteView exDb exUserStaffOnly 1).2.inmuebles = [] ∧
    ((inmuebleDeleteView exDb exUserStaffOnly 1).2.gastosOf 1).length = 0 ∧
    (exDb.gastosOf 1).length = 1 ∧
    ((softDeleteInmueble exDb 1).gastosOf 1).length = 1 ∧
    { exInmueble with activo := false } ∈ (softDeleteInmueble exDb 1).inmuebles := by
  refine ⟨?_, ?_, ?_, ?_, ?_, ?_, ?_⟩ <;>
    simp [inmuebleDeleteView, hardDeleteInmueble, softDeleteInmueble,
          Database.findInmueble, Database.gastosOf, check_inmueble_permission,
          exDb, exUserStaffOnly, exInmueble, exGasto, exUserNoPerm]

/-- C6: once a property id resolves, an authenticated user who fails the
permission check gets a redirect carrying a flash message from every
read, update or delete handler for the property or its expenses — never a
distinct error status — and the stored state is returned unchanged. -/
theorem c6_unauthorized_redirect (db : Database) (user : User) (pk gpk : Nat)
    (inm : Inmueble) (g : Gasto) (edit : Inmueble → Inmueble)
    (gedit : Gasto → Gasto) (gnew : Gasto)
    (hfind : db.findInmueble pk = some inm)
    (hperm : check_inmueble_permission db user inm = false)
    (hg : db.findGasto gpk = some g)
    (hgi : g.inmuebleId = pk) :
    inmueble_detail db user pk
      = (.redirectError "No tienes permiso para ver este inmueble", db) ∧
    inmuebleUpdateView db user pk edit
      = (.redirectError "No tienes permiso para editar este inmueble", db) ∧
    inmuebleDeleteView db user pk
      = (.redirectError "No tienes permiso para eliminar este inmueble", db) ∧
    gastoCreateView db user pk gnew
      = (.redirectError "No tienes permiso para agregar gastos", db) ∧
    gastoUpdateView db user gpk gedit
      = (.redirectError "No tienes permiso para editar este gasto", db) ∧
    gastoDeleteView db user gpk
      = (.redirectError "No tienes permiso para eliminar este gasto", db) := by
  refine ⟨?_, ?_, ?_, ?_, ?_, ?_⟩ <;>
    simp [inmueble_detail, inmuebleUpdateView, inmuebleDeleteView, gastoCreateView,
          gastoUpdateView, gastoDeleteView, hfind, hperm, hg, hgi]

/-- C6 witness: in the example store (no owner records) the non-staff
user 4 is denied on property 1 and on expense 1, with each handler
redirecting and leaving the store unchanged. -/
theorem c6_unauthorized_redirect_witness :
    check_inmueble_permission exDb exUserNoPerm exInmueble = false ∧
    (inmueble_detail exDb exUserNoPerm 1
       = (.redirectError "No tienes permiso para ver este inmueble", exDb) ∧
     inmuebleUpdateView exDb exUserNoPerm 1 id
       = (.redirectError "No tienes permiso para editar este inmueble", exDb) ∧
     inmuebleDeleteView exDb exUserNoPerm 1
       = (.redirectError "No tienes permiso para eliminar este inmueble", exDb) ∧
     gastoCreateView exDb exUserNoPerm 1 exGastoNuevo
       = (.redirectError "No tienes permiso para agregar gastos", exDb) ∧
     gastoUpdateView exDb exUserNoPerm 1 id
       = (.redirectError "No tienes permiso para editar este gasto", exDb) ∧
     gastoDeleteView exDb exUserNoPerm 1
       = (.redirectError "No tienes permiso para eliminar este gasto", exDb)) :=
  ⟨by decide,
   c6_unauthorized_redirect exDb exUserNoPerm 1 1 exInmueble exGasto id id exGastoNuevo
     (by decide) (by decide) (by decide) rfl⟩

/-- C7 counterexample: a logged-in user with neither staff flag nor owner
record submits a valid form; the owner assignment fails
(`Socio.DoesNotExist`), no exception reaches the atomic block, and the
transaction commits with the new property row persisted and no owner
association — a partial failure does leave an orphaned row. -/
theorem c7_orphan_property_counterexample :
    (inmuebleCreateView exDbNoSocios exUserNoPerm exNuevoInmueble 5 false false).1
      = .permissionRedirect ∧
    ((inmuebleCreateView exDbNoSocios exUserNoPerm exNuevoInmueble 5 false false).2.findInmueble
        5).isSome = true ∧
    (inmuebleCreateView exDbNoSocios exUserNoPerm exNuevoInmueble 5 false false).2.socios_m2m
      = [] := by
  decide

/-- C7 amended: when the creating user does hold an owner record, the
create-and-assign sequence is atomic — a raised failure in either write
rolls the store back unchanged, and otherwise the sequence succeeds with
the property row saved and its owner association present. -/
theorem c7_atomic_create_amended (db : Database) (user : User) (newInm : Inmueble)
    (freshPk : Nat) (saveRaises addRaises : Bool) (socio : Socio)
    (hs : db.socios.find? (fun s => s.usuarioId == user.id) = some socio) :
    inmuebleCreateView db user newInm freshPk saveRaises addRaises
      = (.errorRolledBack, db) ∨
    ((inmuebleCreateView db user newInm freshPk saveRaises addRaises).1 = .success ∧
     (∃ i ∈ (inmuebleCreateView db user newInm freshPk saveRaises addRaises).2.inmuebles,
        i.pk = some freshPk) ∧
     (socio.id, freshPk)
       ∈ (inmuebleCreateView db user newInm freshPk saveRaises addRaises).2.socios_m2m) := by
  unfold inmuebleCreateView
  cases saveRaises with
  | true => exact Or.inl rfl
  | false =>
    rw [if_neg (by simp)]
    rw [hs]
    cases addRaises with
    | true => exact Or.inl rfl
    | false =>
      right
      by_cases hc : (socio.id, freshPk) ∈ db.socios_m2m
      · exact ⟨by simp [hc], ⟨{ newInm with pk := some freshPk }, by simp [hc], rfl⟩,
          by simp [hc]⟩
      · exact ⟨by simp [hc], ⟨{ newInm with pk := some freshPk }, by simp [hc], rfl⟩,
          by simp [hc]⟩

/-- C7 amended witness: user 5 holds owner record 5; creating a property
in the empty store succeeds with the row and its association persisted. -/
theorem c7_atomic_create_amended_witness :
    inmuebleCreateView exDbConSocio exUserSocio exNuevoInmueble 5 false false
      = (.errorRolledBack, exDbConSocio) ∨
    ((inmuebleCreateView exDbConSocio exUserSocio exNuevoInmueble 5 false false).1
       = .success ∧
     (∃ i ∈ (inmuebleCreateView exDbConSocio exUserSocio exNuevoInmueble 5 false
         false).2.inmuebles, i.pk = some 5) ∧
     (exSocio5.id, 5)
       ∈ (inmuebleCreateView exDbConSocio exUserSocio exNuevoInmueble 5 false
           false).2.socios_m2m) :=
  c7_atomic_create_amended exDbConSocio exUserSocio exNuevoInmueble 5 false false
    exSocio5 (by decide)

/-- C8: under the `unique_together` constraint on (socio, anio,
trimestre), inserting a second declaration for a triple already stored is
rejected and the stored declarations are unchanged. -/
theorem c8_declaracion_unique (ds : List DeclaracionTrimestral)
    (d e : DeclaracionTrimestral) (he : e ∈ ds)
    (h1 : e.socioId = d.socioId) (h2 : e.anio = d.anio)
    (h3 : e.trimestre = d.trimestre) :
    insertDeclaracion ds d = (false, ds) := by
  have hany : ds.any (fun x =>
      x.socioId == d.socioId && x.anio == d.anio && x.trimestre == d.trimestre) = true := by
    rw [List.any_eq_true]
    exact ⟨e, he, by simp [h1, h2, h3]⟩
  simp [insertDeclaracion, hany]

/-- C8 witness: re-inserting the stored (owner 5, 2024, Q1) declaration —
with different amounts — is rejected and the store keeps its single row. -/
theorem c8_declaracion_unique_witness :
    insertDeclaracion [exDeclaracion] { exDeclaracion with irpf_total := 0, declarado := true }
      = (false, [exDeclaracion]) :=
  c8_declaracion_unique [exDeclaracion]
    { exDeclaracion with irpf_total := 0, declarado := true } exDeclaracion
    (by simp) rfl rfl rfl

/-- C9: every property or expense handler performs the existence lookup
before the permission check — a missing id yields the not-found outcome
for every user, and the permission-denied redirect can only be produced
for an id that exists. -/
theorem c9_notfound_precedes_permission (db : Database) (user : User)
    (pk gpk : Nat) (gnew : Gasto) :
    (db.findInmueble pk = none →
      inmueble_detail db user pk = (.notFound, db) ∧
      gastoCreateView db user pk gnew = (.notFound, db)) ∧
    (db.findGasto gpk = none → gastoDeleteView db user gpk = (.notFound, db)) ∧
    (∀ flash db2, inmueble_detail db user pk = (.redirectError flash, db2) →
      (db.findInmueble pk).isSome = true) ∧
    (∀ flash db2, gastoCreateView db user pk gnew = (.redirectError flash, db2) →
      (db.findInmueble pk).isSome = true) ∧
    (∀ flash db2, gastoDeleteView db user gpk = (.redirectError flash, db2) →
      (db.findGasto gpk).isSome = true) := by
  refine ⟨?_, ?_, ?_, ?_, ?_⟩
  · intro h
    constructor <;> simp [inmueble_detail, gastoCreateView, h]
  · intro h
    simp [gastoDeleteView, h]
  · intro flash db2 h
    cases hf : db.findInmueble pk with
    | none => simp [inmueble_detail, hf] at h
    | some inm => simp
  · intro flash db2 h
    cases hf : db.findInmueble pk with
    | none => simp [gastoCreateView, hf] at h
    | some inm => simp
  · intro flash db2 h
    cases hf : db.findGasto gpk with
    | none => simp [gastoDeleteView, hf] at h
    | some g => simp

/-- C9 witness: id 99 exists in neither table of the example store, so the
detail, expense-create and expense-delete handlers all answer not-found
for the (unauthorized) user 4. -/
theorem c9_notfound_precedes_permission_witness :
    (inmueble_detail exDb exUserNoPerm 99 = (.notFound, exDb) ∧
     gastoCreateView exDb exUserNoPerm 99 exGastoNuevo = (.notFound, exDb)) ∧
    gastoDeleteView exDb exUserNoPerm 99 = (.notFound, exDb) :=
  ⟨(c9_notfound_precedes_permission exDb exUserNoPerm 99 99 exGastoNuevo).1 (by decide),
   (c9_notfound_precedes_permission exDb exUserNoPerm 99 99 exGastoNuevo).2.1 (by decide)⟩

/-- C10: a visible but deactivated property is excluded from the row
scope of the dashboard and JSON-API aggregations (both filter on
`activo=True`) yet still belongs to the row scope of the reports totals
and of the property list, which apply no such filter. -/
theorem c10_active_filter_scope (db : Database) (user : User) (i : Inmueble)
    (hv : i ∈ (get_user_inmuebles db user).1) (hin : i.activo = false) :
    i ∉ dashboardInmuebles db user ∧
    i ∉ apiDashboardInmuebles db user ∧
    i ∈ reportesInmuebles db user ∧
    i ∈ inmueblesListInmuebles db user := by
  refine ⟨?_, ?_, hv, hv⟩ <;>
    simp [dashboardInmuebles, apiDashboardInmuebles, List.mem_filter, hin]

/-- C10 witness: the deactivated property 2, visible to the staff user, is
outside the dashboard and API scopes and inside the reports and list
scopes. -/
theorem c10_active_filter_scope_witness :
    exInmuebleInactivo ∉ dashboardInmuebles exDbInactivo exUserStaffOnly ∧
    exInmuebleInactivo ∉ apiDashboardInmuebles exDbInactivo exUserStaffOnly ∧
    exInmuebleInactivo ∈ reportesInmuebles exDbInactivo exUserStaffOnly ∧
    exInmuebleInactivo ∈ inmueblesListInmuebles exDbInactivo exUserStaffOnly :=
  c10_active_filter_scope exDbInactivo exUserStaffOnly exInmuebleInactivo
    (by simp [get_user_inmuebles, exDbInactivo, exUserStaffOnly]) rfl

end RentManager
